import Mathlib

/-!
Shallow embedding of the raster-to-overlay pipeline of this repository
(`app.py` and `conver.py`).

Modelling conventions:
* Raster pixel values (numpy float64 after `.astype(float)`) are modelled as
  exact rationals `ℚ`; a NaN cell ("missing" / undefined value) is `none` in
  `Option ℚ`.  Arithmetic that produces NaN or infinity in numpy (`0/0`,
  division by zero, NaN propagation, casting NaN to uint8) is modelled as
  `none` / undefined output.
* `numpy.ndarray.astype(numpy.uint8)` on an in-range value truncates toward
  zero; `floatToUInt8` models exactly that truncation (no wrap-around is
  modelled: the range theorem below shows the cast input always lies in
  [0, 255] whenever it is defined, so no wrapping ever happens).
* Streamlit reports (`st.error` / `st.warning`) and `print` diagnostics are
  modelled as an append-only list of `ErrorReport`s tagged with the error
  class of the specification taxonomy.
* The folium map object is modelled as the ordered list of layers appended to
  it; the disk is an environment mapping paths to raster files / vector-file
  existence, and PNG writes are recorded in a path-indexed store plus a write
  log.
-/

/-- Geographic bounding box of a raster (`src.bounds` in rasterio order:
left, bottom, right, top). -/
structure Bounds where
  left : ℚ
  bottom : ℚ
  right : ℚ
  top : ℚ
deriving DecidableEq

/-- A raster file on disk: band count (`src.count`), the first band
(`src.read(1)`) flattened to a pixel list, the declared NoData sentinel
(`src.nodata`, `none` when undeclared) and the geographic bounds. -/
structure RasterFile where
  count : ℕ
  band1 : List ℚ
  nodata : Option ℚ
  bounds : Bounds
deriving DecidableEq

/-- `image[image == src.nodata] = np.nan` guarded by `if src.nodata is not
None` (in `conver.py` the guard is absent, but `array == None` matches no
cell, which is the same behaviour): cells equal to the sentinel become NaN
(`none`), all others stay defined. -/
def maskNoData (nodata : Option ℚ) (pixels : List ℚ) : List (Option ℚ) :=
  match nodata with
  | none => pixels.map some
  | some nd => pixels.map (fun p => if p = nd then none else some p)

/-- Minimum of a list of rationals, `none` on the empty list. -/
def listMinQ : List ℚ → Option ℚ
  | [] => none
  | x :: xs =>
    match listMinQ xs with
    | none => some x
    | some m => some (min x m)

/-- Maximum of a list of rationals, `none` on the empty list. -/
def listMaxQ : List ℚ → Option ℚ
  | [] => none
  | x :: xs =>
    match listMaxQ xs with
    | none => some x
    | some m => some (max x m)

/-- `np.nanmin`: minimum over the defined (non-NaN) cells; `none` (numpy: NaN
with an all-NaN-slice warning) when no cell is defined. -/
def nanmin (xs : List (Option ℚ)) : Option ℚ :=
  listMinQ (xs.filterMap id)

/-- `np.nanmax`, analogously. -/
def nanmax (xs : List (Option ℚ)) : Option ℚ :=
  listMaxQ (xs.filterMap id)

/-- The C-style float-to-uint8 conversion performed by
`.astype(np.uint8)` on an in-range value: truncation toward zero. -/
def floatToUInt8 (q : ℚ) : ℤ :=
  if 0 ≤ q then ⌊q⌋ else ⌈q⌉

/-- One cell of `((image - min_val) / (max_val - min_val) * 255)
.astype(np.uint8)`: NaN cells stay undefined; when the denominator is zero
the division yields NaN/inf (modelled `none`), otherwise the linear rescale
followed by the uint8 truncation. -/
def normPixel (m M : ℚ) : Option ℚ → Option ℤ
  | none => none
  | some v => if M - m = 0 then none else some (floatToUInt8 ((v - m) / (M - m) * 255))

/-- The normalization core shared by `save_raster_as_png` (`app.py`) and
`convert_single_band_tiff_to_grayscale_png` (`conver.py`): mask NoData,
take `nanmin`/`nanmax`, linearly rescale into 8 bits.  When every cell is
NaN, `nanmin`/`nanmax` are NaN and every output cell is NaN-derived
(undefined). -/
def normalizeRaster (r : RasterFile) : List (Option ℤ) :=
  match nanmin (maskNoData r.nodata r.band1), nanmax (maskNoData r.nodata r.band1) with
  | some m, some M => (maskNoData r.nodata r.band1).map (normPixel m M)
  | _, _ => (maskNoData r.nodata r.band1).map (fun _ => none)

/-- Error classes of the specification taxonomy, as emitted by the
`st.error` / `st.warning` / `print` calls in the source. -/
inductive ErrClass
  | missingFile
  | missingOverlayInput
  | unsupportedFormat
deriving DecidableEq

/-- One user-visible report: its class and the path it mentions (empty when
the message names no path, as in `overlay_raster_on_map`). -/
structure ErrorReport where
  cls : ErrClass
  path : String
deriving DecidableEq

/-- A registered `folium.raster_layers.ImageOverlay`: image path, the bounds
pair `[[min_lat, min_lon], [max_lat, max_lon]]` as built from
`bounds.bottom, bounds.left, bounds.top, bounds.right`, the opacity and the
layer name. -/
structure OverlaySpec where
  image : String
  corners : (ℚ × ℚ) × (ℚ × ℚ)
  opacity : ℚ
  name : String
deriving DecidableEq

/-- A layer appended to the folium map.  `legend` is the vocabulary for a
legend attachment; no code path of this repository ever constructs one
(`LEGEND_FILES` is defined but never read). -/
inductive Layer
  | vector (name : String) (path : String)
  | overlay (spec : OverlaySpec)
  | legend (riskType : String)
deriving DecidableEq

/-- The file system as the pipeline sees it: rasters readable at a path, and
existence of vector shapefiles. -/
structure Disk where
  rasters : String → Option RasterFile
  vectorExists : String → Bool

/-- The mutable state threaded through one dashboard run: the folium map
(center, zoom, ordered layer list), the PNG files written so far, a log of
write events, and the reports shown to the user. -/
structure PipelineState where
  center : ℚ × ℚ
  zoom : ℕ
  layers : List Layer
  files : String → Option (List (Option ℤ))
  writeLog : List String
  errors : List ErrorReport

/-- `DATA_FOLDERS` of `app.py` (defined there, but never consulted when
paths are built). -/
def DATA_FOLDERS : List (String × String) :=
  [("Base", "data/base/"), ("2030", "data/2030/"),
   ("2050", "data/2050/"), ("2080", "data/2080/")]

/-- `LEGEND_FILES` of `app.py` (defined there, but never read). -/
def LEGEND_FILES : List (String × String) :=
  [("Flood", "assets/legend_flood.png"), ("Heat", "assets/legend_heat.png"),
   ("Drought", "assets/legend_drought.png")]

/-- `DEFAULT_MAP_CENTER` (Mumbai coordinates). -/
def DEFAULT_MAP_CENTER : ℚ × ℚ := (19.0760, 72.8777)

/-- `CITY_LOCATIONS`. -/
def CITY_LOCATIONS : List (String × (ℚ × ℚ)) :=
  [("Mumbai", (19.0760, 72.8777)), ("Delhi", (28.7041, 77.1025)),
   ("Bangalore", (12.9716, 77.5946))]

/-- `save_raster_as_png(raster_path, output_png="processed_raster.png")`:
missing file reports a MissingFileError and returns `(None, None)`;
otherwise the raster is normalized, written to `output_png`, and
`(output_png, src.bounds)` is returned. -/
def save_raster_as_png (disk : Disk) (raster_path : String)
    (output_png : String) (s : PipelineState) :
    (Option String × Option Bounds) × PipelineState :=
  match disk.rasters raster_path with
  | none =>
    ((none, none),
     { s with errors := s.errors ++ [⟨ErrClass.missingFile, raster_path⟩] })
  | some src =>
    ((some output_png, some src.bounds),
     { s with
         files := fun p => if p = output_png then some (normalizeRaster src) else s.files p,
         writeLog := s.writeLog ++ [output_png] })

/-- `overlay_raster_on_map(map_obj, raster_png, bounds, layer_name)`: when
either input is absent it reports and returns without registering; otherwise
it appends one `ImageOverlay` with opacity 0.7 and the given name. -/
def overlay_raster_on_map (raster_png : Option String) (bounds : Option Bounds)
    (layer_name : String) (s : PipelineState) : PipelineState :=
  match raster_png, bounds with
  | some png, some b =>
    { s with
        layers := s.layers ++
          [Layer.overlay ⟨png, ((b.bottom, b.left), (b.top, b.right)), 0.7, layer_name⟩] }
  | _, _ =>
    { s with errors := s.errors ++ [⟨ErrClass.missingOverlayInput, ""⟩] }

/-- `load_vector(shapefile_path, map_obj, layer_name)`: missing file reports
a warning (MissingFileError class) and returns; otherwise a `GeoJson` layer
is appended. -/
def load_vector (disk : Disk) (shapefile_path : String) (layer_name : String)
    (s : PipelineState) : PipelineState :=
  if disk.vectorExists shapefile_path then
    { s with layers := s.layers ++ [Layer.vector layer_name shapefile_path] }
  else
    { s with errors := s.errors ++ [⟨ErrClass.missingFile, shapefile_path⟩] }

/-- The extent dispatch of `show_map`: only the exact strings `"ULB"` and
`"Village"` select `ulb.shp` / `village.shp`; anything else falls back to
`mmr.shp`. -/
def vector_file (region extent : String) : String :=
  if extent = "ULB" then "data/" ++ region ++ "/ulb.shp"
  else if extent = "Village" then "data/" ++ region ++ "/village.shp"
  else "data/" ++ region ++ "/mmr.shp"

/-- `show_map(region, city, time_projection, extent)`: pick center and zoom,
create the map, and load the extent boundary vector.  `time_projection` is
accepted and ignored, as in the source. -/
def show_map (disk : Disk) (region city time_projection extent : String) :
    PipelineState :=
  let center :=
    if region = "Mumbai" then (CITY_LOCATIONS.lookup city).getD DEFAULT_MAP_CENTER
    else DEFAULT_MAP_CENTER
  let zoom : ℕ := if region = "Mumbai" then 10 else 5
  let s0 : PipelineState := ⟨center, zoom, [], fun _ => none, [], []⟩
  load_vector disk (vector_file region extent) extent s0

/-- `str.lower()` (the risk-type names are ASCII). -/
def strToLower (s : String) : String :=
  ⟨s.data.map Char.toLower⟩

/-- The raster path built inline in `main`:
`f"data/{region}/{time_projection}/{risk_type.lower()}.tif"`.  Note the
interpolation is direct: `DATA_FOLDERS` is not consulted. -/
def raster_path_for (region time_projection risk_type : String) : String :=
  "data/" ++ region ++ "/" ++ time_projection ++ "/" ++ strToLower risk_type ++ ".tif"

/-- One iteration of the `for risk_type in risk_types` loop of `main`:
normalize (to the default output `"processed_raster.png"`), then overlay. -/
def risk_step (disk : Disk) (region time_projection : String)
    (s : PipelineState) (risk_type : String) : PipelineState :=
  let raster_path := raster_path_for region time_projection risk_type
  let res := save_raster_as_png disk raster_path "processed_raster.png" s
  overlay_raster_on_map res.1.1 res.1.2 risk_type res.2

/-- `main`: build the map with the boundary vector, then process each
requested risk type in order. -/
def dashboard_main (disk : Disk) (region city time_projection extent : String)
    (risk_types : List String) : PipelineState :=
  let city_map := show_map disk region city time_projection extent
  risk_types.foldl (risk_step disk region time_projection) city_map

/-- `convert_single_band_tiff_to_grayscale_png(input_tiff, output_png)` of
`conver.py`: missing file → report, nothing written; multi-band → warning
(UnsupportedFormatError class), nothing written; otherwise band 1 is
normalized and written.  Returns (return value, files written, reports). -/
def convert_single_band_tiff_to_grayscale_png (disk : Disk)
    (input_tiff output_png : String) :
    Option String × List (String × List (Option ℤ)) × List ErrorReport :=
  match disk.rasters input_tiff with
  | none => (none, [], [⟨ErrClass.missingFile, input_tiff⟩])
  | some src =>
    if src.count > 1 then (none, [], [⟨ErrClass.unsupportedFormat, input_tiff⟩])
    else (some output_png, [(output_png, normalizeRaster src)], [])

/-- The extent options offered by `sidebar()`. -/
def sidebar_extent_options : List String := ["Urban Local Body", "Village"]

/-- The overlay registrations of a state, in registration order. -/
def overlayLayers (s : PipelineState) : List OverlaySpec :=
  s.layers.filterMap (fun l =>
    match l with
    | Layer.overlay sp => some sp
    | _ => none)

/-- The reports of a given class, in emission order. -/
def errorsOfClass (c : ErrClass) (s : PipelineState) : List ErrorReport :=
  s.errors.filter (fun e => e.cls = c)

/-- The legend attachments of a state. -/
def legendLayers (s : PipelineState) : List String :=
  s.layers.filterMap (fun l =>
    match l with
    | Layer.legend rt => some rt
    | _ => none)

/-! ### Helper lemmas about the list minimum / maximum -/

theorem listMinQ_eq_none_iff (xs : List ℚ) : listMinQ xs = none ↔ xs = [] := by
  cases xs with
  | nil => simp [listMinQ]
  | cons x xs =>
    simp only [listMinQ]
    cases listMinQ xs <;> simp

theorem listMinQ_le {xs : List ℚ} {m x : ℚ}
    (hm : listMinQ xs = some m) (hx : x ∈ xs) : m ≤ x := by
  induction xs generalizing m with
  | nil => cases hx
  | cons y ys ih =>
    simp only [listMinQ] at hm
    rcases hys : listMinQ ys with _ | m'
    · rw [hys] at hm
      simp only [Option.some.injEq] at hm
      subst hm
      have hnil : ys = [] := (listMinQ_eq_none_iff ys).1 hys
      subst hnil
      rcases List.mem_cons.1 hx with h | h
      · exact le_of_eq h.symm
      · cases h
    · rw [hys] at hm
      simp only [Option.some.injEq] at hm
      subst hm
      rcases List.mem_cons.1 hx with rfl | h
      · exact min_le_left _ _
      · exact le_trans (min_le_right _ _) (ih hys h)

theorem listMaxQ_eq_none_iff (xs : List ℚ) : listMaxQ xs = none ↔ xs = [] := by
  cases xs with
  | nil => simp [listMaxQ]
  | cons x xs =>
    simp only [listMaxQ]
    cases listMaxQ xs <;> simp

theorem le_listMaxQ {xs : List ℚ} {M x : ℚ}
    (hM : listMaxQ xs = some M) (hx : x ∈ xs) : x ≤ M := by
  induction xs generalizing M with
  | nil => cases hx
  | cons y ys ih =>
    simp only [listMaxQ] at hM
    rcases hys : listMaxQ ys with _ | M'
    · rw [hys] at hM
      simp only [Option.some.injEq] at hM
      subst hM
      have hnil : ys = [] := (listMaxQ_eq_none_iff ys).1 hys
      subst hnil
      rcases List.mem_cons.1 hx with h | h
      · exact le_of_eq h
      · cases h
    · rw [hys] at hM
      simp only [Option.some.injEq] at hM
      subst hM
      rcases List.mem_cons.1 hx with rfl | h
      · exact le_max_left _ _
      · exact le_trans (ih hys h) (le_max_right _ _)

theorem maskNoData_some_filterMap (nd : ℚ) (ps : List ℚ) :
    (maskNoData (some nd) ps).filterMap id =
      ps.filter (fun p => decide (p ≠ nd)) := by
  induction ps with
  | nil => simp [maskNoData]
  | cons p ps ih =>
    simp only [maskNoData, List.map_cons, List.filterMap_cons, List.filter_cons] at ih ⊢
    by_cases hp : p = nd
    · simp [hp, ih]
    · simp [hp, ih]

/-! ### Concrete fixtures used by witnesses and counterexamples -/

/-- A bounding box used in concrete examples. -/
def bounds0 : Bounds := ⟨72, 18, 73, 19⟩

/-- A single-band raster with a declared NoData sentinel -9999 and valid
values 0, 50, 100. -/
def rasterND : RasterFile := ⟨1, [0, 50, -9999, 100], some (-9999), bounds0⟩

/-- A constant single-band raster (every valid pixel equals 5). -/
def constRaster : RasterFile := ⟨1, [5, 5], none, bounds0⟩

/-- A raster whose every pixel equals its declared NoData sentinel. -/
def allNoDataRaster : RasterFile := ⟨1, [7, 7], some 7, bounds0⟩

/-- A two-band raster (band count 2). -/
def twoBandRaster : RasterFile := ⟨2, [1, 2], none, bounds0⟩

/-! ### Claim theorems -/

/-- Claim C1: for every single-band raster input with a declared NoData
sentinel, every defined pixel value of the image produced by the Raster
Normalizer lies in [0, 255], and the minimum and maximum used for the
linear rescale `(value - min) / (max - min) * 255` are computed over
exactly the pixels different from the sentinel, so NoData pixels are
excluded from them. -/
theorem c1_output_range_and_nodata_exclusion (r : RasterFile) (nd : ℚ)
    (h : r.nodata = some nd) :
    (∀ v ∈ normalizeRaster r, ∀ x : ℤ, v = some x → 0 ≤ x ∧ x ≤ 255) ∧
    nanmin (maskNoData r.nodata r.band1) =
      listMinQ (r.band1.filter (fun p => decide (p ≠ nd))) ∧
    nanmax (maskNoData r.nodata r.band1) =
      listMaxQ (r.band1.filter (fun p => decide (p ≠ nd))) := by
  refine ⟨?_, ?_, ?_⟩
  · intro v hv x hvx
    unfold normalizeRaster at hv
    rcases hmin : nanmin (maskNoData r.nodata r.band1) with _ | m <;> rw [hmin] at hv
    · obtain ⟨a, _, hva⟩ := List.mem_map.1 hv
      rw [← hva] at hvx
      cases hvx
    · rcases hmax : nanmax (maskNoData r.nodata r.band1) with _ | M <;> rw [hmax] at hv
      · obtain ⟨a, _, hva⟩ := List.mem_map.1 hv
        rw [← hva] at hvx
        cases hvx
      · obtain ⟨u, hu, huv⟩ := List.mem_map.1 hv
        rw [← huv] at hvx
        cases u with
        | none => cases hvx
        | some q =>
          simp only [normPixel] at hvx
          by_cases hMm : M - m = 0
          · rw [if_pos hMm] at hvx
            cases hvx
          · rw [if_neg hMm] at hvx
            simp only [Option.some.injEq] at hvx
            subst hvx
            have hqmem : q ∈ (maskNoData r.nodata r.band1).filterMap id :=
              List.mem_filterMap.2 ⟨some q, hu, rfl⟩
            have hmq : m ≤ q := listMinQ_le hmin hqmem
            have hqM : q ≤ M := le_listMaxQ hmax hqmem
            have hpos : 0 < M - m :=
              lt_of_le_of_ne (sub_nonneg.2 (hmq.trans hqM)) (Ne.symm hMm)
            have h0 : 0 ≤ (q - m) / (M - m) * 255 :=
              mul_nonneg (div_nonneg (sub_nonneg.2 hmq) hpos.le) (by norm_num)
            have h1 : (q - m) / (M - m) ≤ 1 :=
              (div_le_one hpos).2 (sub_le_sub_right hqM m)
            have h255 : (q - m) / (M - m) * 255 ≤ 255 := by
              calc (q - m) / (M - m) * 255 ≤ 1 * 255 :=
                    mul_le_mul_of_nonneg_right h1 (by norm_num)
                _ = 255 := one_mul _
            rw [floatToUInt8, if_pos h0]
            refine ⟨Int.floor_nonneg.2 h0, ?_⟩
            have hfl : (⌊(q - m) / (M - m) * 255⌋ : ℚ) ≤ 255 :=
              le_trans (Int.floor_le _) h255
            exact_mod_cast hfl
  · rw [h, nanmin, maskNoData_some_filterMap]
  · rw [h, nanmax, maskNoData_some_filterMap]

/-- Witness for C1 at the concrete raster `rasterND` (sentinel -9999). -/
theorem c1_witness :
    (∀ v ∈ normalizeRaster rasterND, ∀ x : ℤ, v = some x → 0 ≤ x ∧ x ≤ 255) ∧
    nanmin (maskNoData rasterND.nodata rasterND.band1) =
      listMinQ (rasterND.band1.filter (fun p => decide (p ≠ -9999))) ∧
    nanmax (maskNoData rasterND.nodata rasterND.band1) =
      listMaxQ (rasterND.band1.filter (fun p => decide (p ≠ -9999))) :=
  c1_output_range_and_nodata_exclusion rasterND (-9999) rfl

theorem listMinQ_mem {xs : List ℚ} {m : ℚ} (h : listMinQ xs = some m) : m ∈ xs := by
  induction xs generalizing m with
  | nil => cases h
  | cons y ys ih =>
    simp only [listMinQ] at h
    rcases hys : listMinQ ys with _ | m' <;> rw [hys] at h <;>
      simp only [Option.some.injEq] at h <;> subst h
    · exact List.mem_cons_self _ _
    · rcases min_choice y m' with hc | hc <;> rw [hc]
      · exact List.mem_cons_self _ _
      · exact List.mem_cons_of_mem _ (ih hys)

theorem listMaxQ_mem {xs : List ℚ} {M : ℚ} (h : listMaxQ xs = some M) : M ∈ xs := by
  induction xs generalizing M with
  | nil => cases h
  | cons y ys ih =>
    simp only [listMaxQ] at h
    rcases hys : listMaxQ ys with _ | M' <;> rw [hys] at h <;>
      simp only [Option.some.injEq] at h <;> subst h
    · exact List.mem_cons_self _ _
    · rcases max_choice y M' with hc | hc <;> rw [hc]
      · exact List.mem_cons_self _ _
      · exact List.mem_cons_of_mem _ (ih hys)

theorem string_data_append (a b : String) : (a ++ b).data = a.data ++ b.data := rfl

theorem string_append_right_ne (a : String) {s t : String} (h : s ≠ t) :
    a ++ s ≠ a ++ t := by
  intro he
  apply h
  have hd : (a ++ s).data = (a ++ t).data := congrArg String.data he
  rw [string_data_append, string_data_append] at hd
  have hst : s.data = t.data := List.append_cancel_left hd
  cases s
  cases t
  exact congrArg String.mk hst

/-- Claim C2 (the code violates it): on a raster whose valid pixels are all
equal (min == max) the rescale denominator `max - min` is zero and numpy
produces NaN - not a well-defined value - at every pixel, and the same
happens when every pixel is NoData; the normalized image is undefined at
every cell (and the subsequent NaN-to-uint8 cast is platform-dependent)
rather than a well-defined uniform image.  No exception is raised, but the
output is not well-defined.  Shown in general and at the two concrete
failing inputs. -/
theorem c2_constant_raster_not_well_defined :
    (∀ (r : RasterFile) (c : ℚ),
        (∀ p ∈ (maskNoData r.nodata r.band1).filterMap id, p = c) →
        ∀ v ∈ normalizeRaster r, v = none) ∧
    normalizeRaster constRaster = [none, none] ∧
    normalizeRaster allNoDataRaster = [none, none] := by
  refine ⟨?_, ?_, ?_⟩
  · intro r c hall v hv
    unfold normalizeRaster at hv
    rcases hmin : nanmin (maskNoData r.nodata r.band1) with _ | m <;> rw [hmin] at hv
    · obtain ⟨a, _, hva⟩ := List.mem_map.1 hv
      exact hva.symm
    · rcases hmax : nanmax (maskNoData r.nodata r.band1) with _ | M <;> rw [hmax] at hv
      · obtain ⟨a, _, hva⟩ := List.mem_map.1 hv
        exact hva.symm
      · have hm : m = c := hall m (listMinQ_mem hmin)
        have hM : M = c := hall M (listMaxQ_mem hmax)
        obtain ⟨u, hu, huv⟩ := List.mem_map.1 hv
        rw [← huv]
        cases u with
        | none => rfl
        | some q => simp [normPixel, hm, hM]
  · norm_num [normalizeRaster, maskNoData, nanmin, nanmax, listMinQ, listMaxQ,
      normPixel, constRaster]
  · norm_num [normalizeRaster, maskNoData, nanmin, nanmax, listMinQ, listMaxQ,
      normPixel, allNoDataRaster]

/-- An empty pipeline state used in concrete examples. -/
def initState : PipelineState := ⟨DEFAULT_MAP_CENTER, 5, [], fun _ => none, [], []⟩

/-- Claim C7: when both the image path and the bounds are present the
Overlay Composer registers exactly one image overlay, with opacity 0.7 and
the given layer name; when either is absent it reports a
MissingOverlayInputError-class error and returns with the layers unchanged
(so the rest of the pipeline is not aborted). -/
theorem c7_overlay_composer (s : PipelineState) (png : String) (b : Bounds)
    (nm : String) :
    overlay_raster_on_map (some png) (some b) nm s =
      { s with layers := s.layers ++
          [Layer.overlay ⟨png, ((b.bottom, b.left), (b.top, b.right)), 0.7, nm⟩] } ∧
    (∀ ob : Option Bounds, overlay_raster_on_map none ob nm s =
      { s with errors := s.errors ++ [⟨ErrClass.missingOverlayInput, ""⟩] }) ∧
    (∀ op : Option String, overlay_raster_on_map op none nm s =
      { s with errors := s.errors ++ [⟨ErrClass.missingOverlayInput, ""⟩] }) := by
  refine ⟨rfl, ?_, ?_⟩
  · intro ob
    cases ob <;> rfl
  · intro op
    cases op <;> rfl

/-- Witness for C7 at a concrete state, path, bounds and name. -/
theorem c7_witness :
    overlay_raster_on_map (some "p.png") (some bounds0) "Flood" initState =
      { initState with layers := initState.layers ++
          [Layer.overlay ⟨"p.png",
            ((bounds0.bottom, bounds0.left), (bounds0.top, bounds0.right)),
            0.7, "Flood"⟩] } ∧
    (∀ ob : Option Bounds, overlay_raster_on_map none ob "Flood" initState =
      { initState with errors := initState.errors ++
          [⟨ErrClass.missingOverlayInput, ""⟩] }) ∧
    (∀ op : Option String, overlay_raster_on_map op none "Flood" initState =
      { initState with errors := initState.errors ++
          [⟨ErrClass.missingOverlayInput, ""⟩] }) :=
  c7_overlay_composer initState "p.png" bounds0 "Flood"

/-- A disk holding only the two-band raster at `"multi.tif"`. -/
def diskTwoBand : Disk :=
  ⟨fun p => if p = "multi.tif" then some twoBandRaster else none, fun _ => true⟩

/-- Counterexample to claim C4 as stated: on a two-band raster the dashboard
Raster Normalizer `save_raster_as_png` does not reject the input - it
returns a PNG path and bounds, and writes the output image file (the
normalization of band 1). -/
theorem c4_counterexample :
    twoBandRaster.count > 1 ∧
    (save_raster_as_png diskTwoBand "multi.tif" "out.png" initState).1 =
      (some "out.png", some bounds0) ∧
    (save_raster_as_png diskTwoBand "multi.tif" "out.png" initState).2.files
        "out.png" = some (normalizeRaster twoBandRaster) := by
  refine ⟨by norm_num [twoBandRaster], ?_, ?_⟩ <;>
    simp [save_raster_as_png, diskTwoBand, twoBandRaster, bounds0]

/-- Claim C4 as amended: only the standalone converter
`convert_single_band_tiff_to_grayscale_png` rejects a multi-band raster
(band count > 1) with an UnsupportedFormatError-class report and writes no
output file; the dashboard normalizer `save_raster_as_png` performs no
band-count check and processes band 1 of the multi-band raster, writing
the output image.  Neither function flattens bands: only band 1 is ever
read. -/
theorem c4_amended (disk : Disk) (input output : String) (r : RasterFile)
    (s : PipelineState) (hr : disk.rasters input = some r)
    (hmulti : r.count > 1) :
    convert_single_band_tiff_to_grayscale_png disk input output =
      (none, [], [⟨ErrClass.unsupportedFormat, input⟩]) ∧
    (save_raster_as_png disk input output s).1 = (some output, some r.bounds) ∧
    (save_raster_as_png disk input output s).2.files output =
      some (normalizeRaster r) := by
  refine ⟨?_, ?_, ?_⟩
  · simp [convert_single_band_tiff_to_grayscale_png, hr, hmulti]
  · simp [save_raster_as_png, hr]
  · simp [save_raster_as_png, hr]

/-- Witness for the amended C4 at the concrete two-band raster. -/
theorem c4_witness :
    convert_single_band_tiff_to_grayscale_png diskTwoBand "multi.tif" "out.png" =
      (none, [], [⟨ErrClass.unsupportedFormat, "multi.tif"⟩]) ∧
    (save_raster_as_png diskTwoBand "multi.tif" "out.png" initState).1 =
      (some "out.png", some twoBandRaster.bounds) ∧
    (save_raster_as_png diskTwoBand "multi.tif" "out.png" initState).2.files
        "out.png" = some (normalizeRaster twoBandRaster) :=
  c4_amended diskTwoBand "multi.tif" "out.png" twoBandRaster initState rfl
    (by norm_num [twoBandRaster])

/-- Counterexample to claim C5 as stated: the unrecognized time-projection
key "2099" resolves to the raster path "data/Mumbai/2099/flood.tif", which
is not a path under the designated default folder: it differs from the
Base-projection path and does not start with the `DATA_FOLDERS` Base entry
"data/base/". -/
theorem c5_counterexample :
    raster_path_for "Mumbai" "2099" "Flood" = "data/Mumbai/2099/flood.tif" ∧
    raster_path_for "Mumbai" "2099" "Flood" ≠
      raster_path_for "Mumbai" "Base" "Flood" ∧
    (raster_path_for "Mumbai" "2099" "Flood").data.take 10 ≠
      "data/base/".data := by
  refine ⟨by decide, by decide, by decide⟩

/-- Claim C5 as amended: path resolution is total and never raises, but
there is no fallback to a default folder for unknown time-projection or
region keys: the key is interpolated verbatim into the raster path (so
distinct time-projection keys always give distinct paths, none of them
collapsing to a Base default; `DATA_FOLDERS` is never consulted).  Only the
extent has a fallback: any extent other than "ULB" and "Village" resolves
the vector path to the regional default `mmr.shp`. -/
theorem c5_amended (region rt extent tp tp' : String)
    (h1 : extent ≠ "ULB") (h2 : extent ≠ "Village") :
    vector_file region extent = "data/" ++ region ++ "/mmr.shp" ∧
    (raster_path_for region tp rt = raster_path_for region tp' rt → tp = tp') := by
  constructor
  · rw [vector_file, if_neg h1, if_neg h2]
  · intro h
    have hd : (raster_path_for region tp rt).data =
        (raster_path_for region tp' rt).data := congrArg String.data h
    simp only [raster_path_for, string_data_append, List.append_assoc] at hd
    have h3 := List.append_cancel_left (List.append_cancel_left
      (List.append_cancel_left hd))
    have h4 : tp.data = tp'.data := List.append_cancel_right h3
    cases tp
    cases tp'
    exact congrArg String.mk h4

/-- Witness for the amended C5 at concrete inputs. -/
theorem c5_witness :
    vector_file "Mumbai" "Urban Local Body" = "data/" ++ "Mumbai" ++ "/mmr.shp" ∧
    (raster_path_for "Mumbai" "2099" "Flood" =
        raster_path_for "Mumbai" "Base" "Flood" → "2099" = "Base") :=
  c5_amended "Mumbai" "Flood" "Urban Local Body" "2099" "Base"
    (by decide) (by decide)

/-- Claim C9 (implicit): in `show_map` only the exact extent strings "ULB"
and "Village" select the `ulb.shp` and `village.shp` boundary files; every
other extent value - including the string "Urban Local Body" that the
sidebar actually offers - resolves the vector path to
`data/{region}/mmr.shp`, so selecting "Urban Local Body" in the UI never
loads the ULB boundary file. -/
theorem c9_extent_dispatch (region : String) :
    vector_file region "ULB" = "data/" ++ region ++ "/ulb.shp" ∧
    vector_file region "Village" = "data/" ++ region ++ "/village.shp" ∧
    (∀ extent, extent ≠ "ULB" → extent ≠ "Village" →
      vector_file region extent = "data/" ++ region ++ "/mmr.shp") ∧
    "Urban Local Body" ∈ sidebar_extent_options ∧
    vector_file region "Urban Local Body" = "data/" ++ region ++ "/mmr.shp" ∧
    vector_file region "Urban Local Body" ≠ "data/" ++ region ++ "/ulb.shp" := by
  refine ⟨rfl, rfl, ?_, ?_, rfl, ?_⟩
  · intro extent hU hV
    rw [vector_file, if_neg hU, if_neg hV]
  · simp [sidebar_extent_options]
  · show "data/" ++ region ++ "/mmr.shp" ≠ "data/" ++ region ++ "/ulb.shp"
    exact string_append_right_ne ("data/" ++ region) (by decide)

/-- Witness for C9 at the concrete region "Mumbai". -/
theorem c9_witness :
    vector_file "Mumbai" "ULB" = "data/" ++ "Mumbai" ++ "/ulb.shp" ∧
    vector_file "Mumbai" "Village" = "data/" ++ "Mumbai" ++ "/village.shp" ∧
    (∀ extent, extent ≠ "ULB" → extent ≠ "Village" →
      vector_file "Mumbai" extent = "data/" ++ "Mumbai" ++ "/mmr.shp") ∧
    "Urban Local Body" ∈ sidebar_extent_options ∧
    vector_file "Mumbai" "Urban Local Body" = "data/" ++ "Mumbai" ++ "/mmr.shp" ∧
    vector_file "Mumbai" "Urban Local Body" ≠ "data/" ++ "Mumbai" ++ "/ulb.shp" :=
  c9_extent_dispatch "Mumbai"

/-- Claim C3: when the requested risk types are one with a missing raster
file and one with a present raster file (and the boundary vector exists),
the pipeline registers exactly one overlay - the one for the present file,
referencing the shared output image with opacity 0.7 - and emits exactly
one MissingFileError-class report, naming the missing raster path; the run
is a total function of its inputs, so no exception escapes the request. -/
theorem c3_one_missing_one_present (disk : Disk)
    (region city tp extent ra rb : String) (r : RasterFile)
    (hmiss : disk.rasters (raster_path_for region tp ra) = none)
    (hpres : disk.rasters (raster_path_for region tp rb) = some r)
    (hvec : disk.vectorExists (vector_file region extent) = true) :
    overlayLayers (dashboard_main disk region city tp extent [ra, rb]) =
      [⟨"processed_raster.png",
        ((r.bounds.bottom, r.bounds.left), (r.bounds.top, r.bounds.right)),
        0.7, rb⟩] ∧
    errorsOfClass ErrClass.missingFile
        (dashboard_main disk region city tp extent [ra, rb]) =
      [⟨ErrClass.missingFile, raster_path_for region tp ra⟩] := by
  constructor <;>
    simp [dashboard_main, show_map, load_vector, hvec, risk_step,
      save_raster_as_png, hmiss, hpres, overlay_raster_on_map, overlayLayers,
      errorsOfClass]

/-- A disk holding only the 2050 heat raster for Mumbai (the flood raster is
missing), with every vector file present. -/
def diskHeatOnly : Disk :=
  ⟨fun p => if p = "data/Mumbai/2050/heat.tif" then some rasterND else none,
   fun _ => true⟩

/-- Witness for C3: risk types ["Flood", "Heat"] against `diskHeatOnly`. -/
theorem c3_witness :
    overlayLayers (dashboard_main diskHeatOnly "Mumbai" "Mumbai" "2050"
        "Village" ["Flood", "Heat"]) =
      [⟨"processed_raster.png",
        ((rasterND.bounds.bottom, rasterND.bounds.left),
         (rasterND.bounds.top, rasterND.bounds.right)),
        0.7, "Heat"⟩] ∧
    errorsOfClass ErrClass.missingFile
        (dashboard_main diskHeatOnly "Mumbai" "Mumbai" "2050" "Village"
          ["Flood", "Heat"]) =
      [⟨ErrClass.missingFile, raster_path_for "Mumbai" "2050" "Flood"⟩] :=
  c3_one_missing_one_present diskHeatOnly "Mumbai" "Mumbai" "2050" "Village"
    "Flood" "Heat" rasterND (by decide) (by decide) rfl

/-- Claim C8: the normalize-then-overlay pipeline is deterministic - running
the Raster Normalizer a second time on the identical raster input returns
the same PNG path and bounds, leaves the written file contents identical
(byte-identical image), and the overlay registration built from the second
run's outputs is identical to the one built from the first run's. -/
theorem c8_determinism (disk : Disk) (path out : String) (s : PipelineState)
    (r : RasterFile) (h : disk.rasters path = some r) :
    (save_raster_as_png disk path out s).1 = (some out, some r.bounds) ∧
    (save_raster_as_png disk path out
        (save_raster_as_png disk path out s).2).1 =
      (save_raster_as_png disk path out s).1 ∧
    (save_raster_as_png disk path out
        (save_raster_as_png disk path out s).2).2.files =
      (save_raster_as_png disk path out s).2.files ∧
    (∀ nm t, overlay_raster_on_map
        (save_raster_as_png disk path out
          (save_raster_as_png disk path out s).2).1.1
        (save_raster_as_png disk path out
          (save_raster_as_png disk path out s).2).1.2 nm t =
      overlay_raster_on_map (save_raster_as_png disk path out s).1.1
        (save_raster_as_png disk path out s).1.2 nm t) := by
  refine ⟨?_, ?_, ?_, ?_⟩
  · simp [save_raster_as_png, h]
  · simp [save_raster_as_png, h]
  · funext p
    by_cases hp : p = out <;> simp [save_raster_as_png, h, hp]
  · intro nm t
    simp [save_raster_as_png, h]

/-- Witness for C8 at the concrete disk `diskHeatOnly`. -/
theorem c8_witness :
    (save_raster_as_png diskHeatOnly "data/Mumbai/2050/heat.tif"
        "processed_raster.png" initState).1 =
      (some "processed_raster.png", some rasterND.bounds) ∧
    (save_raster_as_png diskHeatOnly "data/Mumbai/2050/heat.tif"
        "processed_raster.png"
        (save_raster_as_png diskHeatOnly "data/Mumbai/2050/heat.tif"
          "processed_raster.png" initState).2).1 =
      (save_raster_as_png diskHeatOnly "data/Mumbai/2050/heat.tif"
        "processed_raster.png" initState).1 ∧
    (save_raster_as_png diskHeatOnly "data/Mumbai/2050/heat.tif"
        "processed_raster.png"
        (save_raster_as_png diskHeatOnly "data/Mumbai/2050/heat.tif"
          "processed_raster.png" initState).2).2.files =
      (save_raster_as_png diskHeatOnly "data/Mumbai/2050/heat.tif"
        "processed_raster.png" initState).2.files ∧
    (∀ nm t, overlay_raster_on_map
        (save_raster_as_png diskHeatOnly "data/Mumbai/2050/heat.tif"
          "processed_raster.png"
          (save_raster_as_png diskHeatOnly "data/Mumbai/2050/heat.tif"
            "processed_raster.png" initState).2).1.1
        (save_raster_as_png diskHeatOnly "data/Mumbai/2050/heat.tif"
          "processed_raster.png"
          (save_raster_as_png diskHeatOnly "data/Mumbai/2050/heat.tif"
            "processed_raster.png" initState).2).1.2 nm t =
      overlay_raster_on_map
        (save_raster_as_png diskHeatOnly "data/Mumbai/2050/heat.tif"
          "processed_raster.png" initState).1.1
        (save_raster_as_png diskHeatOnly "data/Mumbai/2050/heat.tif"
          "processed_raster.png" initState).1.2 nm t) :=
  c8_determinism diskHeatOnly "data/Mumbai/2050/heat.tif"
    "processed_raster.png" initState rasterND (by decide)

/-- A disk holding both 2050 rasters for Mumbai and every vector file. -/
def diskBoth : Disk :=
  ⟨fun p => if p = "data/Mumbai/2050/flood.tif" then some rasterND
    else if p = "data/Mumbai/2050/heat.tif" then some constRaster else none,
   fun _ => true⟩

/-- Counterexample to claim C6 as stated: in the concrete scenario
(region "Mumbai", extent "Village", time projection "2050", risk types
Flood and Heat, all files present) the run attaches zero legend layers -
not two - and adds three layers in total (boundary vector plus two
overlays), with no layer-control affordance: `app.py` never reads
`LEGEND_FILES` and never adds a layer control. -/
theorem c6_counterexample :
    legendLayers (dashboard_main diskBoth "Mumbai" "Mumbai" "2050" "Village"
      ["Flood", "Heat"]) = [] ∧
    (dashboard_main diskBoth "Mumbai" "Mumbai" "2050" "Village"
      ["Flood", "Heat"]).layers.length = 3 := by
  have hf : diskBoth.rasters (raster_path_for "Mumbai" "2050" "Flood") =
      some rasterND := by decide
  have hh : diskBoth.rasters (raster_path_for "Mumbai" "2050" "Heat") =
      some constRaster := by decide
  have hv : diskBoth.vectorExists (vector_file "Mumbai" "Village") = true := rfl
  constructor <;>
    simp [dashboard_main, show_map, load_vector, hv, risk_step,
      save_raster_as_png, hf, hh, overlay_raster_on_map, legendLayers]

/-- The layer sequence the amended claim C6 predicts for a run: the vector
boundary layer first (when the boundary file exists), then one raster
overlay - referencing the shared output image, with opacity 0.7 and the
risk-type name - per requested risk type whose raster file is present, in
the order the risk types were requested, and nothing else (in particular no
legend attachments and no layer-control).  Stated from the claim's words,
to be compared with the pipeline embedded from the source. -/
def predictedLayers (disk : Disk) (region tp extent : String)
    (rts : List String) : List Layer :=
  (if disk.vectorExists (vector_file region extent) then
    [Layer.vector extent (vector_file region extent)]
  else []) ++
  rts.filterMap (fun rt =>
    match disk.rasters (raster_path_for region tp rt) with
    | some r => some (Layer.overlay ⟨"processed_raster.png",
        ((r.bounds.bottom, r.bounds.left), (r.bounds.top, r.bounds.right)),
        0.7, rt⟩)
    | none => none)

theorem risk_step_layers (disk : Disk) (region tp : String)
    (s : PipelineState) (rt : String) :
    (risk_step disk region tp s rt).layers =
      s.layers ++
        (match disk.rasters (raster_path_for region tp rt) with
        | some r => [Layer.overlay ⟨"processed_raster.png",
            ((r.bounds.bottom, r.bounds.left), (r.bounds.top, r.bounds.right)),
            0.7, rt⟩]
        | none => []) := by
  unfold risk_step
  rcases hdisk : disk.rasters (raster_path_for region tp rt) with _ | src <;>
    simp [save_raster_as_png, hdisk, overlay_raster_on_map]

theorem foldl_risk_step_layers (disk : Disk) (region tp : String)
    (rts : List String) (s : PipelineState) :
    (rts.foldl (risk_step disk region tp) s).layers =
      s.layers ++
        rts.filterMap (fun rt =>
          match disk.rasters (raster_path_for region tp rt) with
          | some r => some (Layer.overlay ⟨"processed_raster.png",
              ((r.bounds.bottom, r.bounds.left), (r.bounds.top, r.bounds.right)),
              0.7, rt⟩)
          | none => none) := by
  induction rts generalizing s with
  | nil => simp
  | cons a as ih =>
    simp only [List.foldl_cons, List.filterMap_cons]
    rw [ih, risk_step_layers]
    rcases hdisk : disk.rasters (raster_path_for region tp a) with _ | src <;>
      simp [List.append_assoc]

theorem show_map_layers (disk : Disk) (region city tp extent : String) :
    (show_map disk region city tp extent).layers =
      if disk.vectorExists (vector_file region extent) then
        [Layer.vector extent (vector_file region extent)]
      else [] := by
  unfold show_map load_vector
  by_cases hv : disk.vectorExists (vector_file region extent) <;> simp [hv]

/-- Claim C6 as amended: for every selection and disk state the map's layer
list is exactly the vector boundary layer first (when the boundary file
exists), then one raster overlay per requested risk type whose raster file
is present, in the order the risk types were requested, and nothing else -
zero legend attachments and no layer-control (no legend or layer-control
code exists in the pipeline); the concrete scenario resolves the two raster
paths under the "2050" folder and the village-boundary vector path and
produces exactly two overlay registrations and zero legend attachments. -/
theorem c6_amended (disk : Disk) (city : String) (rf rh : RasterFile)
    (hf : disk.rasters (raster_path_for "Mumbai" "2050" "Flood") = some rf)
    (hh : disk.rasters (raster_path_for "Mumbai" "2050" "Heat") = some rh)
    (hv : disk.vectorExists (vector_file "Mumbai" "Village") = true) :
    (∀ (d : Disk) (region c tp extent : String) (rts : List String),
      (dashboard_main d region c tp extent rts).layers =
        predictedLayers d region tp extent rts) ∧
    raster_path_for "Mumbai" "2050" "Flood" = "data/Mumbai/2050/flood.tif" ∧
    raster_path_for "Mumbai" "2050" "Heat" = "data/Mumbai/2050/heat.tif" ∧
    vector_file "Mumbai" "Village" = "data/Mumbai/village.shp" ∧
    (dashboard_main disk "Mumbai" city "2050" "Village"
        ["Flood", "Heat"]).layers =
      [Layer.vector "Village" (vector_file "Mumbai" "Village"),
       Layer.overlay ⟨"processed_raster.png",
         ((rf.bounds.bottom, rf.bounds.left), (rf.bounds.top, rf.bounds.right)),
         0.7, "Flood"⟩,
       Layer.overlay ⟨"processed_raster.png",
         ((rh.bounds.bottom, rh.bounds.left), (rh.bounds.top, rh.bounds.right)),
         0.7, "Heat"⟩] := by
  refine ⟨?_, by decide, by decide, by decide, ?_⟩
  · intro d region c tp extent rts
    simp only [dashboard_main, predictedLayers]
    rw [foldl_risk_step_layers, show_map_layers]
  · simp [dashboard_main, show_map, load_vector, hv, risk_step,
      save_raster_as_png, hf, hh, overlay_raster_on_map]

/-- Witness for the amended C6 at the concrete disk `diskBoth`. -/
theorem c6_witness :
    (∀ (d : Disk) (region c tp extent : String) (rts : List String),
      (dashboard_main d region c tp extent rts).layers =
        predictedLayers d region tp extent rts) ∧
    raster_path_for "Mumbai" "2050" "Flood" = "data/Mumbai/2050/flood.tif" ∧
    raster_path_for "Mumbai" "2050" "Heat" = "data/Mumbai/2050/heat.tif" ∧
    vector_file "Mumbai" "Village" = "data/Mumbai/village.shp" ∧
    (dashboard_main diskBoth "Mumbai" "Mumbai" "2050" "Village"
        ["Flood", "Heat"]).layers =
      [Layer.vector "Village" (vector_file "Mumbai" "Village"),
       Layer.overlay ⟨"processed_raster.png",
         ((rasterND.bounds.bottom, rasterND.bounds.left),
          (rasterND.bounds.top, rasterND.bounds.right)),
         0.7, "Flood"⟩,
       Layer.overlay ⟨"processed_raster.png",
         ((constRaster.bounds.bottom, constRaster.bounds.left),
          (constRaster.bounds.top, constRaster.bounds.right)),
         0.7, "Heat"⟩] :=
  c6_amended diskBoth "Mumbai" rasterND constRaster (by decide) (by decide) rfl

theorem risk_step_image_inv (disk : Disk) (region tp : String)
    (s : PipelineState) (rt : String)
    (hl : ∀ sp : OverlaySpec, Layer.overlay sp ∈ s.layers →
      sp.image = "processed_raster.png")
    (hw : ∀ w ∈ s.writeLog, w = "processed_raster.png") :
    (∀ sp : OverlaySpec,
        Layer.overlay sp ∈ (risk_step disk region tp s rt).layers →
        sp.image = "processed_raster.png") ∧
    (∀ w ∈ (risk_step disk region tp s rt).writeLog,
        w = "processed_raster.png") := by
  unfold risk_step
  rcases hdisk : disk.rasters (raster_path_for region tp rt) with _ | src <;>
    simp only [save_raster_as_png, hdisk, overlay_raster_on_map]
  · exact ⟨hl, hw⟩
  · constructor
    · intro sp hsp
      rcases List.mem_append.1 hsp with h1 | h1
      · exact hl sp h1
      · simp only [List.mem_singleton, Layer.overlay.injEq] at h1
        rw [h1]
    · intro w hw'
      rcases List.mem_append.1 hw' with h1 | h1
      · exact hw w h1
      · simp only [List.mem_singleton] at h1
        exact h1

theorem foldl_risk_step_image_inv (disk : Disk) (region tp : String)
    (rts : List String) (s : PipelineState)
    (hl : ∀ sp : OverlaySpec, Layer.overlay sp ∈ s.layers →
      sp.image = "processed_raster.png")
    (hw : ∀ w ∈ s.writeLog, w = "processed_raster.png") :
    (∀ sp : OverlaySpec,
        Layer.overlay sp ∈
          (rts.foldl (risk_step disk region tp) s).layers →
        sp.image = "processed_raster.png") ∧
    (∀ w ∈ (rts.foldl (risk_step disk region tp) s).writeLog,
        w = "processed_raster.png") := by
  induction rts generalizing s with
  | nil => exact ⟨hl, hw⟩
  | cons a as ih =>
    simp only [List.foldl_cons]
    obtain ⟨hl', hw'⟩ := risk_step_image_inv disk region tp s a hl hw
    exact ih _ hl' hw'

theorem show_map_no_overlay (disk : Disk)
    (region city tp extent : String) :
    (∀ sp : OverlaySpec,
        Layer.overlay sp ∈ (show_map disk region city tp extent).layers →
        sp.image = "processed_raster.png") ∧
    (show_map disk region city tp extent).writeLog = [] := by
  unfold show_map load_vector
  by_cases hv : disk.vectorExists (vector_file region extent) <;>
    simp [hv]

/-- Claim C10 (implicit): every normalization in the main pipeline writes to
the same fixed output path "processed_raster.png" (the default output
argument), so every write in the log and every overlay registration
references that single shared image path, and after a run whose last
requested risk type has a present raster, the shared file holds that last
raster's normalized image (each earlier write was overwritten). -/
theorem c10_shared_output_path (disk : Disk)
    (region city tp extent : String) (rts rts' : List String) (rt : String)
    (r : RasterFile)
    (h : disk.rasters (raster_path_for region tp rt) = some r) :
    (∀ sp : OverlaySpec,
        Layer.overlay sp ∈
          (dashboard_main disk region city tp extent rts).layers →
        sp.image = "processed_raster.png") ∧
    (∀ w ∈ (dashboard_main disk region city tp extent rts).writeLog,
        w = "processed_raster.png") ∧
    (dashboard_main disk region city tp extent (rts' ++ [rt])).files
        "processed_raster.png" = some (normalizeRaster r) := by
  obtain ⟨hl0, hw0⟩ := show_map_no_overlay disk region city tp extent
  have hw0' : ∀ w ∈ (show_map disk region city tp extent).writeLog,
      w = "processed_raster.png" := by
    rw [hw0]
    intro w hw'
    cases hw'
  obtain ⟨hl, hw⟩ := foldl_risk_step_image_inv disk region tp rts
    (show_map disk region city tp extent) hl0 hw0'
  refine ⟨hl, hw, ?_⟩
  unfold dashboard_main
  rw [List.foldl_append]
  simp [risk_step, save_raster_as_png, h, overlay_raster_on_map]

/-- Witness for C10: after requesting ["Flood", "Heat"] against
`diskHeatOnly` the shared file holds the normalization of the heat raster,
and all registrations and writes reference "processed_raster.png". -/
theorem c10_witness :
    (∀ sp : OverlaySpec,
        Layer.overlay sp ∈
          (dashboard_main diskHeatOnly "Mumbai" "Mumbai" "2050" "Village"
            ["Flood", "Heat"]).layers →
        sp.image = "processed_raster.png") ∧
    (∀ w ∈ (dashboard_main diskHeatOnly "Mumbai" "Mumbai" "2050" "Village"
        ["Flood", "Heat"]).writeLog,
        w = "processed_raster.png") ∧
    (dashboard_main diskHeatOnly "Mumbai" "Mumbai" "2050" "Village"
        (["Flood"] ++ ["Heat"])).files "processed_raster.png" =
      some (normalizeRaster rasterND) :=
  c10_shared_output_path diskHeatOnly "Mumbai" "Mumbai" "2050" "Village"
    ["Flood", "Heat"] ["Flood"] "Heat" rasterND (by decide)
